import Mathlib

/-!
Shallow embedding of the review-parsing and rating-extraction core of the
`ac_conference_helper` repository (`src/ac_conference_helper/core/models.py`,
`core/display.py`, and the field-extraction part of
`client/openreview_client.py`).

Strings are modelled as Lean `String`s and, where the Python code scans
character by character (substring tests, regex captures), as `List Char`.
Python `Optional[T]` becomes `Option T`; a raising constructor becomes
`Except String`.
-/

namespace ACHelper

/-- Python `needle in hay` on strings: contiguous-substring containment. -/
def isSubstr (needle : List Char) : List Char → Bool
  | [] => needle.isEmpty
  | c :: t => needle.isPrefixOf (c :: t) || isSubstr needle t

/-- Python `str.lower` restricted to the ASCII range used by the code. -/
def lowerStr (cs : List Char) : List Char := cs.map Char.toLower

/-- The characters matched by Python's `\s` (and stripped by `str.strip`). -/
def pyIsSpace (c : Char) : Bool :=
  c = ' ' || c = '\t' || c = '\n' || c = '\r' || c = '\x0b' || c = '\x0c'

/-- Python `str.strip`: remove whitespace from both ends. -/
def stripChars (cs : List Char) : List Char :=
  ((cs.dropWhile pyIsSpace).reverse.dropWhile pyIsSpace).reverse

/-- The `rating_map` dict of `Review._extract_numeric_rating`, in its
insertion (= iteration) order. -/
def rating_map : List (String × Int) :=
  [("1: Reject", 1), ("2: Weak Reject", 2), ("3: Borderline Reject", 3),
   ("4: Borderline Accept", 4), ("5: Weak Accept", 5), ("6: Accept", 6),
   ("Reject", 1), ("Weak Reject", 2), ("Borderline Reject", 3),
   ("Borderline Accept", 4), ("Weak Accept", 5), ("Accept", 6)]

/-- `Review._extract_numeric_rating`: `-1` for an absent (`None` or empty)
recommendation, the first map entry whose label is a substring of the text,
else Python `None` (here `none`). -/
def extract_numeric_rating (recommendation_text : Option String) : Option Int :=
  match recommendation_text with
  | none => some (-1)
  | some s =>
    if s = "" then some (-1)
    else
      match rating_map.find? (fun p => isSubstr p.1.data s.data) with
      | some p => some p.2
      | none => none

/-- First maximal digit run in a character list (Python `re.search(r"(\d+)")`). -/
def firstDigitRun : List Char → Option (List Char)
  | [] => none
  | c :: t =>
    if c.isDigit then some (c :: t.takeWhile (fun d => d.isDigit))
    else firstDigitRun t

/-- Numeric value of a digit run (Python `int` on the matched group). -/
def digitsVal (ds : List Char) : Nat :=
  ds.foldl (fun acc c => acc * 10 + (c.toNat - 48)) 0

/-- `Review.numeric_confidence` extraction on the raw confidence text:
`None` when absent or empty, else the first digit run, else `None`. -/
def extract_numeric_confidence (confidence_level : Option String) : Option Nat :=
  match confidence_level with
  | none => none
  | some s =>
    if s = "" then none
    else (firstDigitRun s.data).map digitsVal

/-- The `Review` model: thirteen stored, independently optional fields. -/
structure Review where
  reviewer_id : Option String := none
  submission_date : Option String := none
  modified_date : Option String := none
  paper_summary : Option String := none
  preliminary_recommendation : Option String := none
  justification_for_recommendation : Option String := none
  confidence_level : Option String := none
  paper_strengths : Option String := none
  major_weaknesses : Option String := none
  minor_weaknesses : Option String := none
  final_recommendation : Option String := none
  final_justification : Option String := none
  raw_content : Option String := none
deriving Repr, DecidableEq

/-- `Review.numeric_rating_final_reccomendation` (property, computed on read). -/
def Review.numeric_rating_final_reccomendation (r : Review) : Option Int :=
  extract_numeric_rating r.final_recommendation

/-- `Review.numeric_rating_preliminary_recommendation` (property). -/
def Review.numeric_rating_preliminary_recommendation (r : Review) : Option Int :=
  extract_numeric_rating r.preliminary_recommendation

/-- `Review.numeric_confidence` (property). -/
def Review.numeric_confidence (r : Review) : Option Nat :=
  extract_numeric_confidence r.confidence_level

/-- Suffix of `hay` after the first occurrence of `needle`
(`re.search` with a literal pattern; `none` when the literal never occurs). -/
def splitAfterFirst (needle : List Char) : List Char → Option (List Char)
  | [] => if needle.isEmpty then some [] else none
  | c :: t =>
    if needle.isPrefixOf (c :: t) then some ((c :: t).drop needle.length)
    else splitAfterFirst needle t

/-- Case-insensitive variant of `splitAfterFirst` (`re.IGNORECASE`); the
returned suffix keeps the original casing. -/
def splitAfterFirstCI (needle : List Char) : List Char → Option (List Char)
  | [] => if needle.isEmpty then some [] else none
  | c :: t =>
    if (lowerStr needle).isPrefixOf (lowerStr (c :: t)) then
      some ((c :: t).drop needle.length)
    else splitAfterFirstCI needle t

/-- `MetaReview._extract_decision`: locate `search_key` case-insensitively,
capture the rest of that line (`\s*(.*?)(?=\n|$)` under `re.DOTALL`: greedy
whitespace skip, then lazily up to the first newline or the end), strip it,
and classify by the fixed keyword priority; the stripped text itself is the
fallback. -/
def extract_decision (content_text : Option String) (search_key : String) :
    Option String :=
  match content_text with
  | none => none
  | some s =>
    if s = "" then none
    else
      match splitAfterFirstCI search_key.data s.data with
      | none => none
      | some rest =>
        let captured := (rest.dropWhile pyIsSpace).takeWhile (fun c => c ≠ '\n')
        let decision_text := stripChars captured
        if decision_text.isEmpty then none
        else
          let dl := lowerStr decision_text
          if isSubstr "clear accept".data dl then some "Clear Accept"
          else if isSubstr "clear reject".data dl then some "Clear Reject"
          else if isSubstr "needs discussion".data dl || isSubstr "borderline".data dl
                  || isSubstr "discuss".data dl then some "Needs Discussion"
          else if isSubstr "accept".data dl then some "Accept"
          else if isSubstr "reject".data dl then some "Reject"
          else some (String.mk decision_text)

/-- The `MetaReview` model. -/
structure MetaReview where
  content : Option String := none
  preliminary_decision : Option String := none
  final_decision : Option String := none
  raw_content : Option String := none
deriving Repr, DecidableEq

/-- `MetaReview` construction: `model_post_init` derives both decisions from
`content` (extraction never raises here, so the `except` arm of the Python
`try` is dead for this model). -/
def mkMetaReview (content : Option String) (raw_content : Option String) :
    MetaReview :=
  { content := content
    preliminary_decision := extract_decision content "Preliminary Recommendation:"
    final_decision := extract_decision content "Final Recommendation:"
    raw_content := raw_content }

/-- The `Submission` model (stored fields only; aggregates are computed). -/
structure Submission where
  title : String
  sub_id : String
  url : String
  reviews : List Review := []
  meta_review : Option MetaReview := none
  pdf_url : Option String := none
  rebuttal_url : Option String := none
  withdrawn : Bool := false
deriving Repr, DecidableEq

/-- `Submission.ratings`: preliminary numeric ratings in review order,
appending whenever the extracted value is not Python `None`
(the `-1` sentinel is not `None`, so it is kept). -/
def Submission.ratings (s : Submission) : List Int :=
  s.reviews.filterMap (fun r => r.numeric_rating_preliminary_recommendation)

/-- `Submission.confidences`: numeric confidences in review order,
appending whenever the extracted value is not `None`. -/
def Submission.confidences (s : Submission) : List Nat :=
  s.reviews.filterMap (fun r => r.numeric_confidence)

/-- `Submission.final_ratings`: final numeric ratings in review order. -/
def Submission.final_ratings (s : Submission) : List Int :=
  s.reviews.filterMap (fun r => r.numeric_rating_final_reccomendation)

/-- Field population step of the pydantic constructor, before validation. -/
def buildSubmission (title : String) (sub_id : String) (url : String)
    (reviews : List Review) (meta_review : Option MetaReview)
    (pdf_url : Option String) (rebuttal_url : Option String)
    (withdrawn : Bool) : Submission :=
  { title := title, sub_id := sub_id, url := url, reviews := reviews,
    meta_review := meta_review, pdf_url := pdf_url,
    rebuttal_url := rebuttal_url, withdrawn := withdrawn }

/-- `Submission` construction: `model_post_init` raises `ValueError` when the
derived ratings and confidences lists differ in length. -/
def mkSubmission (title : String) (sub_id : String) (url : String)
    (reviews : List Review) (meta_review : Option MetaReview)
    (pdf_url : Option String) (rebuttal_url : Option String)
    (withdrawn : Bool) : Except String Submission :=
  if (buildSubmission title sub_id url reviews meta_review pdf_url rebuttal_url
        withdrawn).ratings.length =
      (buildSubmission title sub_id url reviews meta_review pdf_url rebuttal_url
        withdrawn).confidences.length then
    Except.ok (buildSubmission title sub_id url reviews meta_review pdf_url
      rebuttal_url withdrawn)
  else Except.error "Ratings and confidences must have same length"

/-- Sum of an integer list (`np.mean` numerator). -/
def intSum (xs : List Int) : Int := xs.foldl (fun a b => a + b) 0

/-- `np.mean` on a nonempty integer list, as an exact rational. -/
def npMean (xs : List Int) : Rat := (intSum xs : Rat) / (xs.length : Rat)

/-- `np.std` squared, i.e. the population variance, as an exact rational
(`np.std` itself is its square root, which is irrational in general; every
claim about these statistics is settled on the square). -/
def npVarOf (xs : List Int) : Rat :=
  let m := npMean xs
  (xs.foldl (fun acc x => acc + ((x : Rat) - m) * ((x : Rat) - m)) 0) /
    (xs.length : Rat)

/-- `Submission.avg_rating`: `np.mean(self.ratings) if self.ratings else 0.0`. -/
def Submission.avg_rating (s : Submission) : Rat :=
  if s.ratings.isEmpty then 0 else npMean s.ratings

/-- `Submission.std_rating` squared (the code guards the empty list to `0.0`;
`0.0 = sqrt 0`, so the guard is preserved exactly on the square). -/
def Submission.std_rating_sq (s : Submission) : Rat :=
  if s.ratings.isEmpty then 0 else npVarOf s.ratings

/-- `Submission.avg_final_rating`. -/
def Submission.avg_final_rating (s : Submission) : Rat :=
  if s.final_ratings.isEmpty then 0 else npMean s.final_ratings

/-- `Submission.std_final_rating` squared. -/
def Submission.std_final_rating_sq (s : Submission) : Rat :=
  if s.final_ratings.isEmpty then 0 else npVarOf s.final_ratings

/-- `Submission.detailed_reviews_count`: reviews bearing a truthy
`final_recommendation` (`None` and the empty string are falsy). -/
def Submission.detailed_reviews_count (s : Submission) : Nat :=
  (s.reviews.filter (fun r =>
    match r.final_recommendation with
    | none => false
    | some t => t ≠ "")).length

/-- The regex capture of `"<Label>:\s*(.*?)(?=\n[A-Z]|$)"` under `re.DOTALL`,
applied after the whitespace skip: the lazy capture ends just before the
first newline that is followed by an uppercase letter, or at the end of the
text (`$` also matches just before a trailing newline). -/
def captureField : List Char → List Char
  | [] => []
  | ['\n'] => []
  | '\n' :: c :: rest =>
    if c.isUpper then [] else '\n' :: captureField (c :: rest)
  | c :: rest => c :: captureField rest

/-- One entry of the `field_patterns` loop of
`OpenReviewClient._parse_reviews`: find the literal label, skip whitespace,
capture to the next capitalized line, strip; the field is set only when the
stripped capture is non-empty. -/
def extractField (label : String) (content : String) : Option String :=
  match splitAfterFirst label.data content.data with
  | none => none
  | some rest =>
    let v := stripChars (captureField (rest.dropWhile pyIsSpace))
    if v.isEmpty then none else some (String.mk v)

/-- The `justification_for_recommendation` pattern
`"Justification For Recommendation.*?:\s*(.*?)(?=\n[A-Z]|$)"`: the lazy gap
runs to the first colon after the label. -/
def extractFieldJustification (content : String) : Option String :=
  match splitAfterFirst "Justification For Recommendation".data content.data with
  | none => none
  | some rest =>
    match splitAfterFirst [':'] rest with
    | none => none
    | some rest2 =>
      let v := stripChars (captureField (rest2.dropWhile pyIsSpace))
      if v.isEmpty then none else some (String.mk v)

/-- The field-population loop of `OpenReviewClient._parse_reviews` on one
review element's text: every pattern is matched independently against the
full original text, and `raw_content` keeps that text. -/
def parseReviewFields (content : String) : Review :=
  { raw_content := some content
    paper_summary := extractField "Paper Summary:" content
    preliminary_recommendation := extractField "Preliminary Recommendation:" content
    justification_for_recommendation := extractFieldJustification content
    confidence_level := extractField "Confidence Level:" content
    paper_strengths := extractField "Paper Strengths:" content
    major_weaknesses := extractField "Major Weaknesses:" content
    minor_weaknesses := extractField "Minor Weaknesses:" content
    final_recommendation := extractField "Final Recommendation:" content
    final_justification := extractField "Final Justification:" content }

/-- `display.py`: `[r for r in ratings if r != -1]`, the valid-rating filter
used for completeness classification. -/
def validRatings (xs : List Int) : List Int := xs.filter (fun r => r ≠ -1)

/-- `display.py` completeness: at least 3 valid preliminary ratings and at
least 3 valid final ratings (`submissions_to_dataframe`; the complementary
`< 3 or < 3` test of `print_incomplete_ratings_table`). -/
def isComplete (s : Submission) : Bool :=
  decide (3 ≤ (validRatings s.ratings).length) &&
    decide (3 ≤ (validRatings s.final_ratings).length)

/-- Following the spec's words, for comparison with the source-translated
`Submission.avg_rating`: the mean over the ratings with every `-1` sentinel
excluded ("aggregate statistics must explicitly exclude `-1` sentinels when
computing means/std-devs"). -/
def spec_avg_rating_excluding_sentinels (s : Submission) : Rat :=
  if (validRatings s.ratings).isEmpty then 0
  else npMean (validRatings s.ratings)

/-- The dict returned by `Review.model_dump`: the thirteen stored fields
plus the three computed numeric properties. -/
structure ReviewDump where
  reviewer_id : Option String
  submission_date : Option String
  modified_date : Option String
  paper_summary : Option String
  preliminary_recommendation : Option String
  justification_for_recommendation : Option String
  confidence_level : Option String
  paper_strengths : Option String
  major_weaknesses : Option String
  minor_weaknesses : Option String
  final_recommendation : Option String
  final_justification : Option String
  raw_content : Option String
  numeric_rating_final_reccomendation : Option Int
  numeric_rating_preliminary_recommendation : Option Int
  numeric_confidence : Option Nat
deriving Repr, DecidableEq

/-- `Review.model_dump`. -/
def Review.model_dump (r : Review) : ReviewDump :=
  { reviewer_id := r.reviewer_id
    submission_date := r.submission_date
    modified_date := r.modified_date
    paper_summary := r.paper_summary
    preliminary_recommendation := r.preliminary_recommendation
    justification_for_recommendation := r.justification_for_recommendation
    confidence_level := r.confidence_level
    paper_strengths := r.paper_strengths
    major_weaknesses := r.major_weaknesses
    minor_weaknesses := r.minor_weaknesses
    final_recommendation := r.final_recommendation
    final_justification := r.final_justification
    raw_content := r.raw_content
    numeric_rating_final_reccomendation := r.numeric_rating_final_reccomendation
    numeric_rating_preliminary_recommendation :=
      r.numeric_rating_preliminary_recommendation
    numeric_confidence := r.numeric_confidence }

/-- The dict returned by `Submission.model_dump`, key for key: it carries
the derived lists and statistics, and has no slot at all for `meta_review`
or `withdrawn` (the std entries store the square of the Python value, as
everywhere in this development). -/
structure SubmissionDump where
  title : String
  sub_id : String
  url : String
  ratings : List Int
  confidences : List Nat
  final_ratings : List Int
  reviews : List ReviewDump
  avg_rating : Rat
  std_rating_sq : Rat
  avg_final_rating : Rat
  std_final_rating_sq : Rat
  detailed_reviews_count : Nat
  has_pdf : Bool
  has_rebuttal : Bool
  pdf_url : Option String
  rebuttal_url : Option String
deriving Repr, DecidableEq

/-- `Submission.model_dump`. -/
def Submission.model_dump (s : Submission) : SubmissionDump :=
  { title := s.title
    sub_id := s.sub_id
    url := s.url
    ratings := s.ratings
    confidences := s.confidences
    final_ratings := s.final_ratings
    reviews := s.reviews.map Review.model_dump
    avg_rating := s.avg_rating
    std_rating_sq := s.std_rating_sq
    avg_final_rating := s.avg_final_rating
    std_final_rating_sq := s.std_final_rating_sq
    detailed_reviews_count := s.detailed_reviews_count
    has_pdf := s.pdf_url.isSome
    has_rebuttal := s.rebuttal_url.isSome
    pdf_url := s.pdf_url
    rebuttal_url := s.rebuttal_url }

/-- Modelled from the spec: the deserialization half of the cached-submission
round trip is not under `src` (the cache load is a pickle call in the script
and UI layers); per the spec a deserializer reconstructs each `Review` from
the serialized record's stored fields and recomputes derived properties. -/
def loadReviewFromDump (d : ReviewDump) : Review :=
  { reviewer_id := d.reviewer_id
    submission_date := d.submission_date
    modified_date := d.modified_date
    paper_summary := d.paper_summary
    preliminary_recommendation := d.preliminary_recommendation
    justification_for_recommendation := d.justification_for_recommendation
    confidence_level := d.confidence_level
    paper_strengths := d.paper_strengths
    major_weaknesses := d.major_weaknesses
    minor_weaknesses := d.minor_weaknesses
    final_recommendation := d.final_recommendation
    final_justification := d.final_justification
    raw_content := d.raw_content }

/-- Modelled from the spec: deserialization of a serialized `Submission`
record, reconstructing from stored fields only and recomputing derived
properties. The record produced by `Submission.model_dump` has no
`meta_review` or `withdrawn` entry, so those take their defaults. -/
def loadSubmissionFromDump (d : SubmissionDump) : Submission :=
  { title := d.title
    sub_id := d.sub_id
    url := d.url
    reviews := d.reviews.map loadReviewFromDump
    meta_review := none
    pdf_url := d.pdf_url
    rebuttal_url := d.rebuttal_url
    withdrawn := false }

/-! Concrete reviews and submissions used by the theorems below. -/

/-- A review carrying only a preliminary recommendation (no confidence). -/
def reviewA : Review := { preliminary_recommendation := some "5: Weak Accept" }

/-- A review carrying only a confidence label (no preliminary
recommendation). -/
def reviewB : Review := { confidence_level := some "4: High" }

/-- A review with both a preliminary recommendation and a confidence. -/
def reviewP : Review :=
  { preliminary_recommendation := some "6: Accept",
    confidence_level := some "4: High" }

/-- A review with a confidence but an absent preliminary recommendation
(its extracted rating is the `-1` sentinel). -/
def reviewQ : Review := { confidence_level := some "3: Medium" }

/-- A submission whose derived ratings are `[6, -1]`, sentinel included. -/
def sub45 : Submission :=
  { title := "T", sub_id := "45", url := "u", reviews := [reviewP, reviewQ] }

/-- A fully populated review for the serialization round trip. -/
def rev5 : Review :=
  { reviewer_id := some "(Anonymous Reviewer 1)",
    paper_summary := some "Studies X",
    preliminary_recommendation := some "5: Weak Accept",
    confidence_level := some "4: High",
    final_recommendation := some "6: Accept",
    raw_content :=
      some "Preliminary Recommendation: 5: Weak Accept\nConfidence Level: 4: High" }

/-- A populated meta-review for the serialization round trip. -/
def meta5 : MetaReview :=
  mkMetaReview (some "Preliminary Recommendation: Clear Accept") (some "meta raw")

/-- A submission with populated `reviews` and `meta_review`. -/
def sub5 : Submission :=
  { title := "P5", sub_id := "5", url := "u5", reviews := [rev5],
    meta_review := some meta5, pdf_url := some "p.pdf" }

/-- Review with valid preliminary, confidence and final labels (6). -/
def rev8a : Review :=
  { preliminary_recommendation := some "6: Accept",
    confidence_level := some "4: High",
    final_recommendation := some "6: Accept" }

/-- Review with valid preliminary, confidence and final labels (5). -/
def rev8b : Review :=
  { preliminary_recommendation := some "5: Weak Accept",
    confidence_level := some "3: Medium",
    final_recommendation := some "5: Weak Accept" }

/-- Review with a valid preliminary rating but an absent final
recommendation (final rating is the `-1` sentinel). -/
def rev8c : Review :=
  { preliminary_recommendation := some "4: Borderline Accept",
    confidence_level := some "4: High" }

/-- Like `rev8c` but with a valid final recommendation. -/
def rev8d : Review :=
  { preliminary_recommendation := some "4: Borderline Accept",
    confidence_level := some "4: High",
    final_recommendation := some "4: Borderline Accept" }

/-- Submission with 3 valid preliminary and 2 valid final ratings. -/
def sub32 : Submission :=
  { title := "P32", sub_id := "32", url := "u", reviews := [rev8a, rev8b, rev8c] }

/-- Submission with 3 valid preliminary and 3 valid final ratings. -/
def sub33 : Submission :=
  { title := "P33", sub_id := "33", url := "u", reviews := [rev8a, rev8b, rev8d] }

/-- A review with no structured fields at all. -/
def emptyReview : Review := {}

/-- A review whose preliminary text matches no label (rating `None`) but
whose confidence carries a digit. -/
def pendingReview : Review :=
  { preliminary_recommendation := some "Pending",
    confidence_level := some "4: High" }

/-- The submission built from `[emptyReview, pendingReview]`: both derived
lists have length one, so validation passes. -/
def sub9c : Submission :=
  { title := "T", sub_id := "9", url := "u",
    reviews := [emptyReview, pendingReview] }

/-- A submission with no reviews (empty derived lists). -/
def sub10 : Submission := { title := "E", sub_id := "10", url := "u" }

/-- A one-review submission that passes validation. -/
def subOk : Submission :=
  { title := "T", sub_id := "3b", url := "u", reviews := [rev8a] }

/-! Helper lemmas shared by the claim theorems. -/

/-- Reviews with an absent preliminary recommendation all contribute the
`-1` sentinel, so the derived ratings list has one entry per review. -/
theorem ratings_length_all_absent (rs : List Review)
    (h : ∀ r ∈ rs, r.preliminary_recommendation = none) :
    (rs.filterMap (fun r => r.numeric_rating_preliminary_recommendation)).length
      = rs.length := by
  induction rs with
  | nil => rfl
  | cons a t ih =>
    have ha := h a (List.mem_cons_self a t)
    have ht := ih (fun r hr => h r (List.mem_cons_of_mem a hr))
    have hhead : (fun r => r.numeric_rating_preliminary_recommendation) a
        = some (-1) := by
      simp [Review.numeric_rating_preliminary_recommendation, ha,
        extract_numeric_rating]
    rw [List.filterMap_cons_some hhead]
    simp [ht]

/-- Reviews with an absent confidence level contribute nothing to the
derived confidences list. -/
theorem confidences_all_absent (rs : List Review)
    (h : ∀ r ∈ rs, r.confidence_level = none) :
    rs.filterMap (fun r => r.numeric_confidence) = [] := by
  induction rs with
  | nil => rfl
  | cons a t ih =>
    have ha := h a (List.mem_cons_self a t)
    have ht := ih (fun r hr => h r (List.mem_cons_of_mem a hr))
    have hhead : (fun r => r.numeric_confidence) a = none := by
      simp [Review.numeric_confidence, ha, extract_numeric_confidence]
    rw [List.filterMap_cons_none hhead]
    exact ht

/-! The claim theorems. -/

/-- C1 counterexample: the bare canonical label "Weak Reject" does not map
to 2. Table iteration reaches the bare entry "Reject" (value 1) first, and
"Reject" is a substring of "Weak Reject", so extraction returns 1. -/
theorem C1_counterexample :
    extract_numeric_rating (some "Weak Reject") = some 1 ∧
    extract_numeric_rating (some "Weak Reject") ≠ some 2 := by
  decide

/-- C1 (amended): every numbered-form label and the bare labels "Reject",
"Borderline Accept", "Weak Accept", "Accept" yield their canonically mapped
integers, but the bare labels "Weak Reject" and "Borderline Reject" both
yield 1, because the earlier bare entry "Reject" matches first as a
substring. -/
theorem C1_amended_thm :
    extract_numeric_rating (some "1: Reject") = some 1 ∧
    extract_numeric_rating (some "2: Weak Reject") = some 2 ∧
    extract_numeric_rating (some "3: Borderline Reject") = some 3 ∧
    extract_numeric_rating (some "4: Borderline Accept") = some 4 ∧
    extract_numeric_rating (some "5: Weak Accept") = some 5 ∧
    extract_numeric_rating (some "6: Accept") = some 6 ∧
    extract_numeric_rating (some "Reject") = some 1 ∧
    extract_numeric_rating (some "Weak Reject") = some 1 ∧
    extract_numeric_rating (some "Borderline Reject") = some 1 ∧
    extract_numeric_rating (some "Borderline Accept") = some 4 ∧
    extract_numeric_rating (some "Weak Accept") = some 5 ∧
    extract_numeric_rating (some "Accept") = some 6 := by
  decide

/-- C2: numeric-rating extraction yields the `-1` sentinel for an absent
recommendation (`None` or the empty string), and Python `None` for every
present but unrecognized recommendation — any non-empty string containing
no canonical label of the map as a substring, such as "Pending"; the two
outcomes are distinct values. -/
theorem C2_thm :
    extract_numeric_rating none = some (-1) ∧
    extract_numeric_rating (some "") = some (-1) ∧
    (∀ s : String, s ≠ "" →
        (∀ p ∈ rating_map, isSubstr p.1.data s.data = false) →
        extract_numeric_rating (some s) = none) ∧
    extract_numeric_rating (some "Pending") = none ∧
    extract_numeric_rating (some "Final Recommendation: Pending") = none ∧
    (some (-1) : Option Int) ≠ (none : Option Int) := by
  refine ⟨by decide, by decide, ?_, by decide, by decide, by decide⟩
  intro s hne hno
  show (if s = "" then some (-1)
        else
          match rating_map.find? (fun p => isSubstr p.1.data s.data) with
          | some p => some p.2
          | none => none) = none
  rw [if_neg hne]
  have hfind : rating_map.find? (fun p => isSubstr p.1.data s.data) = none := by
    rw [List.find?_eq_none]
    intro p hp
    simp [hno p hp]
  rw [hfind]

/-- C2 witness: the universal unrecognized-input clause instantiated at
"Pending", whose text contains none of the twelve map labels. -/
theorem C2_witness : extract_numeric_rating (some "Pending") = none :=
  C2_thm.2.2.1 "Pending" (by decide) (by decide)

/-- C3: every successfully constructed Submission satisfies
`len(ratings) = len(confidences)`, and constructing one from a review with
a preliminary recommendation but no confidence together with a review with
the converse raises the length-mismatch `ValueError`. -/
theorem C3_thm :
    (∀ (t i u : String) (rs : List Review) (mr : Option MetaReview)
        (p rb : Option String) (w : Bool) (s : Submission),
        mkSubmission t i u rs mr p rb w = Except.ok s →
        s.ratings.length = s.confidences.length) ∧
    mkSubmission "T" "3" "u" [reviewA, reviewB] none none none false =
      Except.error "Ratings and confidences must have same length" := by
  constructor
  · intro t i u rs mr p rb w s h
    unfold mkSubmission at h
    split at h
    · cases h
      assumption
    · cases h
  · rfl

/-- C3 witness: the invariant instantiated at a concrete constructible
submission. -/
theorem C3_witness : subOk.ratings.length = subOk.confidences.length :=
  C3_thm.1 "T" "3b" "u" [rev8a] none none none false subOk rfl

/-- C4 counterexample: on a submission whose derived ratings are `[6, -1]`,
the code's `avg_rating` is `5/2` — the mean over the full list, sentinel
included — while the sentinel-excluding mean demanded by the claim is `6`. -/
theorem C4_counterexample :
    sub45.avg_rating = 5 / 2 ∧
    spec_avg_rating_excluding_sentinels sub45 = 6 ∧
    sub45.avg_rating ≠ spec_avg_rating_excluding_sentinels sub45 := by
  have h : sub45.ratings = [6, -1] := by decide
  have h1 : sub45.avg_rating = 5 / 2 := by
    unfold Submission.avg_rating
    rw [h]
    norm_num [npMean, intSum]
  have h2 : spec_avg_rating_excluding_sentinels sub45 = 6 := by
    unfold spec_avg_rating_excluding_sentinels validRatings
    rw [h]
    norm_num [npMean, intSum]
  refine ⟨h1, h2, ?_⟩
  rw [h1, h2]
  norm_num

/-- C4 (amended): the aggregate statistics are computed over the full
derived rating lists with `-1` sentinels included — on ratings `[6, -1]`
the mean is `5/2` (not the filtered `6`) and the variance is `49/4`, and on
final ratings `[-1, -1]` the mean is `-1` — while the raw ratings list used
for the length-invariant check also keeps every value including `-1`; only
the display layer's completeness filter drops `-1`. -/
theorem C4_amended_thm :
    sub45.ratings = [6, -1] ∧
    sub45.confidences = [4, 3] ∧
    sub45.final_ratings = [-1, -1] ∧
    sub45.avg_rating = 5 / 2 ∧
    sub45.std_rating_sq = 49 / 4 ∧
    sub45.avg_final_rating = -1 ∧
    validRatings sub45.ratings = [6] := by
  have h : sub45.ratings = [6, -1] := by decide
  have hf : sub45.final_ratings = [-1, -1] := by decide
  refine ⟨h, by decide, hf, ?_, ?_, ?_, by decide⟩
  · unfold Submission.avg_rating
    rw [h]
    norm_num [npMean, intSum]
  · unfold Submission.std_rating_sq
    rw [h]
    norm_num [npVarOf, npMean, intSum]
  · unfold Submission.avg_final_rating
    rw [hf]
    norm_num [npMean, intSum]

/-- C5 counterexample: the serialized record produced by
`Submission.model_dump` has no `meta_review` entry and does persist derived
values, so the round trip of a submission with a populated `meta_review`
does not restore it: reconstruction yields `meta_review = none` and a
submission different from the original, while the dump's `avg_rating` slot
carries the derived statistic. -/
theorem C5_counterexample :
    sub5.meta_review = some meta5 ∧
    (loadSubmissionFromDump sub5.model_dump).meta_review = none ∧
    loadSubmissionFromDump sub5.model_dump ≠ sub5 ∧
    sub5.model_dump.avg_rating = sub5.avg_rating ∧
    sub5.model_dump.ratings = sub5.ratings := by
  refine ⟨rfl, rfl, by decide, rfl, rfl⟩

/-- C5 (amended): round-tripping a Submission through `model_dump` and
reconstruction from the record's stored fields preserves the identity and
link fields and every review — including each review's `raw_content` — and
the recomputed `avg_rating` equals the pre-round-trip value; but the record
also persists the derived values (`ratings`, `avg_rating`, …), and
`meta_review` has no slot in it, so it always comes back absent. -/
theorem C5_amended_thm (s : Submission) :
    (loadSubmissionFromDump s.model_dump).title = s.title ∧
    (loadSubmissionFromDump s.model_dump).sub_id = s.sub_id ∧
    (loadSubmissionFromDump s.model_dump).url = s.url ∧
    (loadSubmissionFromDump s.model_dump).reviews = s.reviews ∧
    (loadSubmissionFromDump s.model_dump).pdf_url = s.pdf_url ∧
    (loadSubmissionFromDump s.model_dump).rebuttal_url = s.rebuttal_url ∧
    (loadSubmissionFromDump s.model_dump).meta_review = none ∧
    (loadSubmissionFromDump s.model_dump).avg_rating = s.avg_rating ∧
    s.model_dump.avg_rating = s.avg_rating ∧
    s.model_dump.ratings = s.ratings := by
  have hrev : (loadSubmissionFromDump s.model_dump).reviews = s.reviews := by
    show (s.reviews.map Review.model_dump).map loadReviewFromDump = s.reviews
    rw [List.map_map]
    exact List.map_id s.reviews
  have hrat : (loadSubmissionFromDump s.model_dump).ratings = s.ratings := by
    show (loadSubmissionFromDump s.model_dump).reviews.filterMap _
        = s.reviews.filterMap _
    rw [hrev]
  have havg : (loadSubmissionFromDump s.model_dump).avg_rating = s.avg_rating := by
    unfold Submission.avg_rating
    rw [hrat]
  exact ⟨rfl, rfl, rfl, hrev, rfl, rfl, rfl, havg, rfl, rfl⟩

/-- C6: the decision classifier applies its case-insensitive keyword rules
in fixed priority order, so the line after "Preliminary Recommendation:" in
"Preliminary Recommendation: Clear Accept, though minor discussion needed"
classifies as "Clear Accept" (rule 1 fires before the "discuss" rule 3);
further inputs pin the rest of the chain: rule 2 before rule 4, rule 3
before rule 4, and the verbatim passthrough. -/
theorem C6_thm :
    extract_decision
        (some "Preliminary Recommendation: Clear Accept, though minor discussion needed")
        "Preliminary Recommendation:" = some "Clear Accept" ∧
    extract_decision
        (some "Preliminary Recommendation: Clear Accept, though minor discussion needed")
        "Preliminary Recommendation:" ≠ some "Needs Discussion" ∧
    (mkMetaReview
        (some "Preliminary Recommendation: Clear Accept, though minor discussion needed")
        none).preliminary_decision = some "Clear Accept" ∧
    extract_decision (some "Preliminary Recommendation: clear reject but maybe accept")
        "Preliminary Recommendation:" = some "Clear Reject" ∧
    extract_decision (some "Preliminary Recommendation: Accept with discussion")
        "Preliminary Recommendation:" = some "Needs Discussion" ∧
    extract_decision (some "Preliminary Recommendation: Solid work")
        "Preliminary Recommendation:" = some "Solid work" := by
  decide

/-- C7: on the raw text "Paper Summary: Good work\nFinal Recommendation:
6: Accept" the field extractor populates `paper_summary` with exactly
"Good work" and `final_recommendation` with exactly "6: Accept", leaves
every other field absent (no cross-contamination), and in general a field
whose pattern finds no non-empty content is never set to the empty
string. -/
theorem C7_thm :
    (parseReviewFields "Paper Summary: Good work\nFinal Recommendation: 6: Accept").paper_summary
      = some "Good work" ∧
    (parseReviewFields "Paper Summary: Good work\nFinal Recommendation: 6: Accept").final_recommendation
      = some "6: Accept" ∧
    (parseReviewFields "Paper Summary: Good work\nFinal Recommendation: 6: Accept").preliminary_recommendation
      = none ∧
    (parseReviewFields "Paper Summary: Good work\nFinal Recommendation: 6: Accept").justification_for_recommendation
      = none ∧
    (parseReviewFields "Paper Summary: Good work\nFinal Recommendation: 6: Accept").confidence_level
      = none ∧
    (parseReviewFields "Paper Summary: Good work\nFinal Recommendation: 6: Accept").paper_strengths
      = none ∧
    (parseReviewFields "Paper Summary: Good work\nFinal Recommendation: 6: Accept").major_weaknesses
      = none ∧
    (parseReviewFields "Paper Summary: Good work\nFinal Recommendation: 6: Accept").minor_weaknesses
      = none ∧
    (parseReviewFields "Paper Summary: Good work\nFinal Recommendation: 6: Accept").final_justification
      = none ∧
    (∀ label content : String, extractField label content ≠ some "") := by
  refine ⟨by decide, by decide, by decide, by decide, by decide, by decide,
    by decide, by decide, by decide, ?_⟩
  intro label content
  unfold extractField
  cases h : splitAfterFirst label.data content.data with
  | none => exact fun hc => Option.noConfusion hc
  | some rest =>
    simp only []
    split
    · exact fun hc => Option.noConfusion hc
    · intro hc
      rename_i hv
      apply hv
      have h2 : String.mk (stripChars (captureField (rest.dropWhile pyIsSpace)))
          = "" := Option.some.inj hc
      have h3 := congrArg String.data h2
      simp at h3
      simp [h3]

/-- C8: a submission is classified complete exactly when it has at least 3
non-sentinel preliminary ratings and at least 3 non-sentinel final ratings;
a constructible submission with 3 valid preliminary and only 2 valid final
ratings is not complete, and one with 3 and 3 is. -/
theorem C8_thm :
    (∀ s : Submission, isComplete s = true ↔
        (3 ≤ (s.ratings.filter (fun r => r ≠ -1)).length ∧
         3 ≤ (s.final_ratings.filter (fun r => r ≠ -1)).length)) ∧
    mkSubmission "P32" "32" "u" [rev8a, rev8b, rev8c] none none none false =
      Except.ok sub32 ∧
    (validRatings sub32.ratings).length = 3 ∧
    (validRatings sub32.final_ratings).length = 2 ∧
    isComplete sub32 = false ∧
    mkSubmission "P33" "33" "u" [rev8a, rev8b, rev8d] none none none false =
      Except.ok sub33 ∧
    (validRatings sub33.ratings).length = 3 ∧
    (validRatings sub33.final_ratings).length = 3 ∧
    isComplete sub33 = true := by
  refine ⟨?_, rfl, by decide, by decide, by decide, rfl, by decide, by decide,
    by decide⟩
  intro s
  simp [isComplete, validRatings]

/-- C9 counterexample: a review list containing a review with both
`preliminary_recommendation` and `confidence_level` absent does not always
fail construction: pairing it with a review whose preliminary text matches
no label (contributing no rating) but whose confidence carries a digit
makes both derived lists have length one, and the Submission is built. -/
theorem C9_counterexample :
    emptyReview.preliminary_recommendation = none ∧
    emptyReview.confidence_level = none ∧
    mkSubmission "T" "9" "u" [emptyReview, pendingReview] none none none false =
      Except.ok sub9c ∧
    sub9c.ratings = [-1] ∧
    sub9c.confidences = [4] := by
  refine ⟨rfl, rfl, rfl, by decide, by decide⟩

/-- C9 (amended): a review with both fields absent contributes the `-1`
sentinel to `ratings` and nothing to `confidences`; hence a Submission
whose reviews all have that shape (at least one review) always fails
construction with the length-mismatch error — but the mismatch can be
offset by other reviews, so not every list containing such a review
fails. -/
theorem C9_amended_thm (t i u : String) (rs : List Review)
    (mr : Option MetaReview) (p rb : Option String) (w : Bool)
    (hne : rs ≠ [])
    (habs : ∀ r ∈ rs,
      r.preliminary_recommendation = none ∧ r.confidence_level = none) :
    mkSubmission t i u rs mr p rb w =
      Except.error "Ratings and confidences must have same length" := by
  have h1 := ratings_length_all_absent rs (fun r hr => (habs r hr).1)
  have h2 := confidences_all_absent rs (fun r hr => (habs r hr).2)
  unfold mkSubmission
  rw [if_neg]
  intro hEq
  have hr : (buildSubmission t i u rs mr p rb w).ratings =
      rs.filterMap (fun r => r.numeric_rating_preliminary_recommendation) := rfl
  have hc : (buildSubmission t i u rs mr p rb w).confidences =
      rs.filterMap (fun r => r.numeric_confidence) := rfl
  rw [hr, hc, h1, h2] at hEq
  simp at hEq
  exact hne hEq

/-- C9 witness: the amended statement at the singleton list of a fully
absent review. -/
theorem C9_witness :
    mkSubmission "T" "9w" "u" [emptyReview] none none none false =
      Except.error "Ratings and confidences must have same length" :=
  C9_amended_thm "T" "9w" "u" [emptyReview] none none none false
    (by decide) (by decide)

/-- C10: whenever the derived ratings (resp. final ratings) list is empty,
`avg_rating` and the std statistic (resp. the final variants) are the
guarded `0.0`, never an undefined or NaN value. -/
theorem C10_thm (s : Submission) :
    (s.ratings = [] → s.avg_rating = 0 ∧ s.std_rating_sq = 0) ∧
    (s.final_ratings = [] →
      s.avg_final_rating = 0 ∧ s.std_final_rating_sq = 0) := by
  constructor
  · intro h
    constructor <;> simp [Submission.avg_rating, Submission.std_rating_sq, h]
  · intro h
    constructor <;>
      simp [Submission.avg_final_rating, Submission.std_final_rating_sq, h]

/-- C10 witness: the guard at a concrete review-less submission. -/
theorem C10_witness :
    sub10.avg_rating = 0 ∧ sub10.std_rating_sq = 0 ∧
    sub10.avg_final_rating = 0 ∧ sub10.std_final_rating_sq = 0 :=
  ⟨((C10_thm sub10).1 rfl).1, ((C10_thm sub10).1 rfl).2,
   ((C10_thm sub10).2 rfl).1, ((C10_thm sub10).2 rfl).2⟩

end ACHelper
